import Mathlib

/-!
# Verification of the MarkdownGPT AI-processing pipeline (src/script.js)

This file shallowly embeds the parts of `src/script.js` that the verified
claims are about:

* `logError` (lines 75-93): bounded error log with `lastError`,
* `processWithAI` (lines 549-766): validation, concurrency guard,
  retry/backoff/timeout loop, local fallback,
* `autoFormatLocal` (lines 531-546) and the three local formatters,
* `enrichContent` (lines 1334-1368) and the platform-specific enrichment
  helpers (lines 1371-1454).

Modelling conventions:

* JS strings are Lean `String`s; all string primitives that the embedded code
  uses (`trim`, `split('\n')`, `includes`, `substring`, `startsWith`) are
  re-implemented structurally over `String.data` so that every definition
  evaluates by kernel reduction.
* The network is an environment `env : Nat → FetchOutcome` giving the result
  of the fetch made on each attempt number.  Wall-clock values (the
  `${processingTime}ms` suffix of the success notification, `Date.now()`
  timestamps) are not modelled; notification text is otherwise kept verbatim.
* The JWT branches are dead under the shipped configuration
  (`CONFIG.ENABLE_JWT = false`), so `ensureValidToken` trivially returns
  `true` and is omitted.  DOM/button bookkeeping is omitted; the editor value
  and the `isProcessing` flag form the mutable state `ProcState`.
* `await new Promise(resolve => setTimeout(resolve, waitTime))` is recorded in
  the run trace as an element of `sleeps`; each fetch is counted in
  `requests`; each `autoFormatLocal()` call is counted in `fallbackCalls`.
-/

/-- The whitespace class used by JS `trim`, `\s` and friends (the members that
can actually occur here). -/
def isWsChar (c : Char) : Bool :=
  c = ' ' || c = '\t' || c = '\n' || c = '\r' || c = '\x0b' || c = '\x0c' ||
  c = '\u00A0' || c = '\uFEFF'

/-- Leading and trailing whitespace removal on character lists. -/
def trimChars (l : List Char) : List Char :=
  ((l.dropWhile isWsChar).reverse.dropWhile isWsChar).reverse

/-- Embedding of JS `String.prototype.trim`. -/
def jsTrim (s : String) : String := String.mk (trimChars s.data)

/-- Worker for `jsSplitNL`: splits a character list at newline characters,
keeping empty pieces, like JS `split('\n')`. -/
def splitLinesGo : List Char → List Char → List (List Char)
  | [], acc => [acc.reverse]
  | c :: rest, acc =>
      if c = '\n' then acc.reverse :: splitLinesGo rest []
      else splitLinesGo rest (c :: acc)

/-- Embedding of JS `content.split('\n')`. -/
def jsSplitNL (s : String) : List String := (splitLinesGo s.data []).map String.mk

/-- Sublist containment on character lists (contiguous occurrence). -/
def listContainsSub : List Char → List Char → Bool
  | _, [] => true
  | [], _ :: _ => false
  | c :: rest, p :: ps => List.isPrefixOf (p :: ps) (c :: rest) || listContainsSub rest (p :: ps)

/-- Embedding of JS `String.prototype.includes`. -/
def strContains (s pat : String) : Bool := listContainsSub s.data pat.data

/-- Configuration object of `src/script.js` lines 2-10 (the fields the
pipeline reads; `ENABLE_JWT = false` makes the JWT paths dead code, and
`ENABLE_LOCAL_FALLBACK` is absent, hence `undefined !== false` holds). -/
structure Config where
  MAX_TEXT_LENGTH : Nat
  RETRY_ATTEMPTS : Nat
  TIMEOUT_MS : Nat
deriving DecidableEq

def CONFIG : Config := ⟨1000, 3, 30000⟩

/-- The two checkbox-backed settings read by `processWithAI` (lines 663-669);
both default to `true` via `?? true`. -/
structure Settings where
  enableIcons : Bool
  enablePrefilled : Bool
deriving DecidableEq

def defaultSettings : Settings := ⟨true, true⟩

/-- Notification severities of `showNotification` (line 1169). -/
inductive Sev where
  | success
  | error
  | warning
  | info
deriving DecidableEq

/-- One `showNotification(message, type)` call. -/
structure Notif where
  message : String
  sev : Sev
deriving DecidableEq

/-! ## `logError` (lines 75-93) -/

/-- The record built by `logError`: `message`, the normalised `error` field
(`error instanceof Error ? error.message : error`, which may be `null`),
`context` and `timestamp` (ISO string).  The `stack` field carries no
information beyond `errVal` for the claims and is kept as an opaque option. -/
structure ErrorRecord where
  message : String
  errVal : Option String
  context : String
  timestamp : String
  stack : Option String
deriving DecidableEq

/-- The `errors`/`lastError` slice of the global `editorState` (lines 13-22). -/
structure ErrorLog where
  errors : List ErrorRecord
  lastError : Option ErrorRecord
deriving DecidableEq

/-- Embedding of `logError` (lines 75-93): push the record, set `lastError`,
then keep only the last 10 entries (`errors.slice(-10)` when
`errors.length > 10`). -/
def logError (message : String) (errVal : Option String) (context : String)
    (timestamp : String) (stack : Option String) (st : ErrorLog) : ErrorLog :=
  let info : ErrorRecord := ⟨message, errVal, context, timestamp, stack⟩
  let errors1 := st.errors ++ [info]
  let errors2 := if 10 < errors1.length then errors1.drop (errors1.length - 10) else errors1
  ⟨errors2, some info⟩

/-- C10: After every call to `logError`, `editorState.errors` contains at most
10 entries, `editorState.lastError` is the record just logged, and that record
is also the last entry of `errors`. -/
theorem logError_bounded_and_last (message : String) (errVal : Option String)
    (context : String) (timestamp : String) (stack : Option String) (st : ErrorLog) :
    (logError message errVal context timestamp stack st).errors.length ≤ 10 ∧
    (logError message errVal context timestamp stack st).lastError =
      some ⟨message, errVal, context, timestamp, stack⟩ ∧
    (logError message errVal context timestamp stack st).errors.getLast? =
      some ⟨message, errVal, context, timestamp, stack⟩ := by
  unfold logError
  set info : ErrorRecord := ⟨message, errVal, context, timestamp, stack⟩ with hinfo
  by_cases h : 10 < (st.errors ++ [info]).length
  · refine ⟨?_, ?_, ?_⟩
    · simp only [h, if_pos]
      simp only [List.length_drop, List.length_append, List.length_cons, List.length_nil]
      omega
    · simp
    · simp only [h, if_pos]
      have hle : (st.errors ++ [info]).length - 10 ≤ st.errors.length := by
        simp only [List.length_append, List.length_cons, List.length_nil]
        omega
      rw [List.drop_append_of_le_length hle]
      exact List.getLast?_concat _
  · refine ⟨?_, ?_, ?_⟩
    · simp only [h, if_neg, not_false_eq_true]
      omega
    · simp
    · simp only [h, if_neg, not_false_eq_true]
      exact List.getLast?_concat _

/-! ## The per-attempt fetch and the retry loop (lines 625-712) -/

/-- A JS `Error`-like value: `name` distinguishes `AbortError` (fired by the
per-attempt timeout's `controller.abort()`) and `TypeError` (a rejected
`fetch`, i.e. network failure) from plain `Error`s thrown by the handler. -/
structure JsError where
  name : String
  message : String
deriving DecidableEq

/-- What the network returns for one attempt: a 2xx response with the parsed
JSON body fields (`success`, `processedText`, `error`), a non-2xx response
(status, statusText, optional body `error` field), a rejected fetch, or an
abort caused by the `CONFIG.TIMEOUT_MS` timer. -/
inductive FetchOutcome where
  | httpOk (success : Bool) (processedText : Option String) (error : Option String)
  | httpError (status : Nat) (statusText : String) (error : Option String)
  | networkError (message : String)
  | abortError
deriving DecidableEq

/-- JS truthiness of an optional string (`undefined`/`null`/`''` are falsy). -/
def truthyOptStr : Option String → Bool
  | some s => s != ""
  | none => false

/-- JS `a || b` on an optional string versus a default string. -/
def jsOr (a : Option String) (b : String) : String :=
  match a with
  | some s => if s = "" then b else s
  | none => b

/-- One iteration of the `try` block of the retry loop (lines 628-691), up to
the point where it either returns the processed text or throws:

* non-2xx: `throw new Error(errorData.error || 'HTTP status: statusText')`
  (lines 646-654);
* 2xx with `result.success && result.processedText` truthy: return the text
  (lines 657-687);
* 2xx otherwise: `throw new Error(result.error || 'Processing failed - no
  processed text returned')` (line 690);
* rejected fetch: the `TypeError` propagates; abort: the `AbortError`
  propagates. -/
def attemptOnce : FetchOutcome → Except JsError String
  | FetchOutcome.httpOk success processedText error =>
      if success && truthyOptStr processedText then Except.ok (processedText.getD "")
      else Except.error ⟨"Error", jsOr error ("Processing failed - no processed text returned")⟩
  | FetchOutcome.httpError status statusText error =>
      Except.error ⟨"Error", jsOr error ("HTTP " ++ toString status ++ ": " ++ statusText)⟩
  | FetchOutcome.networkError message => Except.error ⟨"TypeError", message⟩
  | FetchOutcome.abortError => Except.error ⟨"AbortError", "The operation was aborted"⟩

/-- The error that `attemptOnce` produces for a failing outcome (used to state
which error the loop propagates from its final attempt). -/
def attemptErr (f : FetchOutcome) : JsError :=
  match attemptOnce f with
  | Except.error e => e
  | Except.ok _ => ⟨"", ""⟩

/-- The dedicated timeout error built at line 697:
`Processing timeout after ${CONFIG.TIMEOUT_MS / 1000} seconds`. -/
def timeoutErr : JsError :=
  ⟨"Error", "Processing timeout after " ++ toString (CONFIG.TIMEOUT_MS / 1000) ++ " seconds"⟩

/-- Trace of the `for` loop of lines 627-709: how many fetches were issued,
the backoff waits performed (ms), the notifications shown, and either the
processed text or the error that escapes the loop. -/
structure LoopResult where
  requests : Nat
  sleeps : List Nat
  notifs : List Notif
  result : Except JsError String

/-- Embedding of the retry loop (lines 627-709).  `attempt` is the current
1-based attempt number, `remaining` the number of loop iterations left
(`maxA - attempt + 1` at every call).  In the `catch` block (lines 693-708):
an `AbortError` is rethrown as the dedicated timeout error (terminating the
loop), the final attempt rethrows the error, and otherwise the loop waits
`2 ** attempt * 1000` ms and continues.  An exhausted loop header (only
reachable when `maxA = 0`) corresponds to line 712,
`throw lastError || new Error('All retry attempts failed')`. -/
def attemptLoop (env : Nat → FetchOutcome) (maxA : Nat) : Nat → Nat → LoopResult
  | _, 0 => ⟨0, [], [], Except.error ⟨"Error", "All retry attempts failed"⟩⟩
  | attempt, r + 1 =>
      let attNotif : Notif :=
        ⟨"🔄 Processing attempt " ++ toString attempt ++ "/" ++ toString maxA ++ "...", Sev.info⟩
      match attemptOnce (env attempt) with
      | Except.ok t => ⟨1, [], [attNotif], Except.ok t⟩
      | Except.error e =>
          if e.name = "AbortError" then ⟨1, [], [attNotif], Except.error timeoutErr⟩
          else if attempt = maxA then ⟨1, [], [attNotif], Except.error e⟩
          else
            let w := 2 ^ attempt * 1000
            let retryNotif : Notif :=
              ⟨"⏳ Retrying in " ++ toString (w / 1000) ++ " seconds...", Sev.info⟩
            let rest := attemptLoop env maxA (attempt + 1) r
            ⟨rest.requests + 1, w :: rest.sleeps, attNotif :: retryNotif :: rest.notifs, rest.result⟩

/-! ## Local formatters (lines 531-546 and 768-836) -/

/-- Does the string start with the given character? (JS `startsWith` for a
one-character prefix.) -/
def startsWithChar (c : Char) (s : String) : Bool :=
  match s.data with
  | d :: _ => d = c
  | [] => false

/-- The keywords of the line-start regex of `formatAsCode` (line 775):
`/^(function|const|let|var|class|import|export)/`. -/
def codeKeywords : List String :=
  ["function", "const", "let", "var", "class", "import", "export"]

/-- Does the line match `/^(function|const|let|var|class|import|export)/`? -/
def startsWithCodeKeyword (line : String) : Bool :=
  codeKeywords.any (fun kw => List.isPrefixOf kw.data line.data)

/-- Loop body of `formatAsCode` (lines 770-797), threading the `inCodeBlock`
flag. -/
def formatAsCodeGo : List String → Bool → List String
  | [], inCode => if inCode then ["```"] else []
  | line :: rest, inCode =>
      if startsWithCodeKeyword line then
        if !inCode then "```javascript" :: line :: formatAsCodeGo rest true
        else line :: formatAsCodeGo rest true
      else if inCode && (jsTrim line = "") then line :: formatAsCodeGo rest true
      else if inCode then "```" :: "" :: line :: formatAsCodeGo rest false
      else line :: formatAsCodeGo rest false

/-- Embedding of `formatAsCode` (lines 768-798). -/
def formatAsCode (content : String) : String :=
  String.intercalate "\n" (formatAsCodeGo (jsSplitNL content) false)

/-- Case-insensitive containment of `"step"`
(for `line.toLowerCase().includes('step')`, line 806). -/
def lowerContainsStep (s : String) : Bool :=
  listContainsSub (s.data.map Char.toLower) ("step".data)

/-- If the character list starts with a match of the (case-insensitive) regex
`step\s*\d*:?\s*` (line 807), return the length of the matched span. -/
def matchStepLen (l : List Char) : Option Nat :=
  match l with
  | s :: t :: e :: p :: rest =>
      if s.toLower = 's' && t.toLower = 't' && e.toLower = 'e' && p.toLower = 'p' then
        let ws1 := rest.takeWhile isWsChar
        let r1 := rest.dropWhile isWsChar
        let ds := r1.takeWhile Char.isDigit
        let r2 := r1.dropWhile Char.isDigit
        let colonLen : Nat := match r2 with
          | ':' :: _ => 1
          | _ => 0
        let r3 := r2.drop colonLen
        let ws2 := r3.takeWhile isWsChar
        some (4 + ws1.length + ds.length + colonLen + ws2.length)
      else none
  | _ => none

/-- Embedding of `line.replace(/step\s*\d*:?\s*/i, '')` (line 807): remove the
first (leftmost) match, if any. -/
def removeStepTag : List Char → List Char
  | [] => []
  | c :: rest =>
      match matchStepLen (c :: rest) with
      | some n => (c :: rest).drop n
      | none => c :: removeStepTag rest

/-- Loop body of `formatAsTutorial` (lines 801-812), threading `stepCounter`. -/
def formatAsTutorialGo : List String → Nat → List String
  | [], _ => []
  | line :: rest, counter =>
      if lowerContainsStep line && !startsWithChar '#' line then
        ("## Step " ++ toString counter ++ ": " ++ String.mk (removeStepTag line.data)) ::
          formatAsTutorialGo rest (counter + 1)
      else line :: formatAsTutorialGo rest counter

/-- Embedding of `formatAsTutorial` (lines 800-815). -/
def formatAsTutorial (content : String) : String :=
  String.intercalate "\n" (formatAsTutorialGo (jsSplitNL content) 1)

/-- Line transform of `formatAsArticle` (lines 820-832). -/
def formatAsArticleLine (line : String) : String :=
  if 0 < line.length && !startsWithChar '#' line && !startsWithChar '-' line &&
      !startsWithChar '*' line then
    if line.length < 60 && !(line.data.contains '.') && !(line.data.contains ',') then
      "## " ++ line
    else line
  else line

/-- Embedding of `formatAsArticle` (lines 817-836). -/
def formatAsArticle (content : String) : String :=
  String.intercalate "\n" ((jsSplitNL content).map formatAsArticleLine)

/-- The content-analysis dispatch of `autoFormatLocal` (lines 534-541). -/
def autoFormatLocalBody (content : String) : String :=
  if strContains content ("function") || strContains content ("const") ||
      strContains content ("class") then formatAsCode content
  else if strContains content ("step") || strContains content ("tutorial") then
    formatAsTutorial content
  else formatAsArticle content

/-- The editor/`isProcessing` slice of the mutable state that `processWithAI`
touches. -/
structure ProcState where
  editorValue : String
  isProcessing : Bool
deriving DecidableEq

/-- Embedding of `autoFormatLocal` (lines 531-546): reads `editor.value`
(it takes no parameter), always writes the formatted content back into the
editor, shows an info notification, and returns `undefined` (modelled as
`none`) — the function has no `return` statement. -/
def autoFormatLocal (st : ProcState) : ProcState × List Notif × Option String :=
  let content := autoFormatLocalBody st.editorValue
  (⟨content, st.isProcessing⟩, [⟨"📝 Local formatting applied", Sev.info⟩], none)

/-! ## Content enrichment (lines 1334-1454) -/

/-- Membership in the emoji/pictograph ranges of the regex at line 1341:
`[\u{1F300}-\u{1F9FF}]|[\u{1F600}-\u{1F64F}]|[\u{1F680}-\u{1F6FF}]|
[\u{2600}-\u{26FF}]|[\u{2700}-\u{27BF}]`. -/
def isEmojiChar (c : Char) : Bool :=
  (0x1F300 ≤ c.toNat && c.toNat ≤ 0x1F9FF) ||
  (0x1F600 ≤ c.toNat && c.toNat ≤ 0x1F64F) ||
  (0x1F680 ≤ c.toNat && c.toNat ≤ 0x1F6FF) ||
  (0x2600 ≤ c.toNat && c.toNat ≤ 0x26FF) ||
  (0x2700 ≤ c.toNat && c.toNat ≤ 0x27BF)

/-- `enriched.replace(/[emoji ranges]/gu, '')` (line 1341). -/
def stripIcons (s : String) : String :=
  String.mk (s.data.filter (fun c => !isEmojiChar c))

/-- `enriched.replace(/—|–/g, '-')` (line 1342). -/
def replaceDashes (s : String) : String :=
  String.mk (s.data.map (fun c => if c = '—' || c = '–' then '-' else c))

/-- Replacement for one maximal newline run under `/\n{3,}/g → '\n\n'`. -/
def flushNL (n : Nat) : List Char :=
  if 3 ≤ n then ['\n', '\n'] else List.replicate n '\n'

/-- Scanner for `replace(/\n{3,}/g, '\n\n')`; `n` counts the pending run of
consecutive newlines. -/
def collapseGo : List Char → Nat → List Char
  | [], n => flushNL n
  | c :: rest, n =>
      if c = '\n' then collapseGo rest (n + 1)
      else flushNL n ++ c :: collapseGo rest 0

/-- `enriched.replace(/\n{3,}/g, '\n\n')` (lines 1406 and 1451). -/
def collapseNewlines (s : String) : String := String.mk (collapseGo s.data 0)

/-- The punctuation class of `/([.!?])\s*([A-Z])/g` (line 1450). -/
def isPunctChar (c : Char) : Bool := c = '.' || c = '!' || c = '?'

/-- Scanner for `replace(/([.!?])\s*([A-Z])/g, '$1 $2')`: the optional state
holds a pending punctuation character and the whitespace seen after it. -/
def spacingGo : List Char → Option (Char × List Char) → List Char
  | [], none => []
  | [], some (p, ws) => p :: ws
  | c :: rest, none =>
      if isPunctChar c then spacingGo rest (some (c, []))
      else c :: spacingGo rest none
  | c :: rest, some (p, ws) =>
      if isWsChar c then spacingGo rest (some (p, ws ++ [c]))
      else if c.isUpper then p :: ' ' :: c :: spacingGo rest none
      else if isPunctChar c then p :: ws ++ spacingGo rest (some (c, []))
      else p :: ws ++ c :: spacingGo rest none

/-- `enriched.replace(/([.!?])\s*([A-Z])/g, '$1 $2')` (line 1450). -/
def fixSpacing (s : String) : String := String.mk (spacingGo s.data none)

/-- The backtick character (U+0060). -/
def backtickChar : Char := Char.ofNat 96

/-- State of the scanner for `replace(/```\s*\n/g, '```javascript\n')`
(line 1434): either counting a run of consecutive backticks, or — after at
least three backticks — collecting the whitespace run that may end in the
newline the pattern requires. -/
inductive FenceSt where
  | ticks (n : Nat)
  | wsRun (acc : List Char)

/-- The suffix of a whitespace run after its last newline. -/
def afterLastNL (ws : List Char) : List Char :=
  (ws.reverse.takeWhile (fun c => c != '\n')).reverse

/-- Emit a completed fence candidate: three backticks followed by the
whitespace run `acc`.  If the run contains a newline the regex matches
(greedy `\s*` backtracks to the last newline) and the match is replaced by
`"```javascript\n"`, keeping the whitespace after that newline; otherwise the
text is emitted unchanged. -/
def fenceFlushWs (acc : List Char) : List Char :=
  if acc.contains '\n' then ("```javascript\n").data ++ afterLastNL acc
  else backtickChar :: backtickChar :: backtickChar :: acc

/-- End-of-input flush for the fence scanner. -/
def fenceFlush : FenceSt → List Char
  | FenceSt.ticks n => List.replicate n backtickChar
  | FenceSt.wsRun acc => fenceFlushWs acc

/-- One step of the fence scanner: returns the characters emitted now and the
next state.  When more than three consecutive backticks occur, the final
three are the ones that can match (the regex scans left to right and the
earlier positions fail on the following backtick). -/
def fenceStep (c : Char) : FenceSt → List Char × FenceSt
  | FenceSt.ticks n =>
      if c = backtickChar then ([], FenceSt.ticks (n + 1))
      else if 3 ≤ n then
        if isWsChar c then (List.replicate (n - 3) backtickChar, FenceSt.wsRun [c])
        else (List.replicate n backtickChar ++ [c], FenceSt.ticks 0)
      else (List.replicate n backtickChar ++ [c], FenceSt.ticks 0)
  | FenceSt.wsRun acc =>
      if isWsChar c then ([], FenceSt.wsRun (acc ++ [c]))
      else if c = backtickChar then (fenceFlushWs acc, FenceSt.ticks 1)
      else (fenceFlushWs acc ++ [c], FenceSt.ticks 0)

/-- Driver of the fence scanner. -/
def fenceScan : List Char → FenceSt → List Char
  | [], st => fenceFlush st
  | c :: rest, st =>
      let step := fenceStep c st
      step.1 ++ fenceScan rest step.2

/-- `enriched.replace(/```\s*\n/g, '```javascript\n')` (line 1434). -/
def fenceReplace (s : String) : String := String.mk (fenceScan s.data (FenceSt.ticks 0))

/-- The tweet-building loop of `enrichTwitterContent` (lines 1375-1389):
greedily packs the non-blank lines into chunks of at most 280 characters,
truncating a single over-long line to 277 characters plus `'...'`. -/
def buildTweets : List String → String → List String
  | [], cur => if cur = "" then [] else [cur]
  | line :: rest, cur =>
      if (cur ++ "\n" ++ line).length ≤ 280 then
        buildTweets rest (if cur = "" then line else cur ++ "\n" ++ line)
      else
        let newCur := if line.length ≤ 280 then line
                      else String.mk (line.data.take 277) ++ "..."
        if cur = "" then buildTweets rest newCur
        else cur :: buildTweets rest newCur

/-- The thread-numbering map of lines 1391-1393: when there is more than one
tweet, tweet `i` (0-based) is emitted as `"${i+1}/${total}\n\n${tweet}"`. -/
def numberFrom (total : Nat) : Nat → List String → List String
  | _, [] => []
  | i, t :: rest =>
      (if 1 < total then toString (i + 1) ++ "/" ++ toString total ++ "\n\n" ++ t else t) ::
        numberFrom total (i + 1) rest

/-- The numbered chunks that `enrichTwitterContent` joins into its output. -/
def numberTweets (tweets : List String) : List String := numberFrom tweets.length 0 tweets

/-- The chunks emitted in the final output of `enrichTwitterContent`,
numbering prefixes included. -/
def emittedTweetChunks (content : String) : List String :=
  numberTweets (buildTweets ((jsSplitNL content).filter (fun l => jsTrim l != "")) "")

/-- Embedding of `enrichTwitterContent` (lines 1371-1394). -/
def enrichTwitterContent (content : String) (_settings : Settings) : String :=
  String.intercalate "\n\n---\n\n" (emittedTweetChunks content)

/-- Embedding of `enrichLinkedInContent` (lines 1396-1409). -/
def enrichLinkedInContent (content : String) (_settings : Settings) : String :=
  let withHook :=
    if !strContains content ("What do you think?") &&
        !strContains content ("Share your thoughts") then
      content ++ "\n\nWhat are your thoughts on this? Share your experience in the comments below!"
    else content
  collapseNewlines withHook

/-- `lines.splice(-1, 0, item)` (line 1419): insert `item` before the last
element. -/
def spliceBeforeLast (l : List String) (item : String) : List String :=
  l.take (l.length - 1) ++ item :: l.drop (l.length - 1)

/-- Embedding of `enrichPeerlistContent` (lines 1411-1425). -/
def enrichPeerlistContent (content : String) (_settings : Settings) : String :=
  if !strContains content ("Key takeaway") && !strContains content ("Lesson learned") then
    let lines := jsSplitNL content
    if 3 < lines.length then
      String.intercalate "\n" (spliceBeforeLast lines
        ("\n**Key takeaway:** Focus on practical insights that advance your career."))
    else String.intercalate "\n" lines
  else content

/-- Embedding of `enrichDailyDevContent` (lines 1427-1443). -/
def enrichDailyDevContent (content : String) (_settings : Settings) : String :=
  let fenced :=
    if strContains content ("function") || strContains content ("const") ||
        strContains content ("code") then fenceReplace content
    else content
  if !strContains fenced ("Happy coding") && !strContains fenced ("developer") then
    fenced ++ "\n\nHappy coding! 🚀\n\nWhat\x27s your experience with this? Let me know in the comments!"
  else fenced

/-- Embedding of `enrichGenericContent` (lines 1445-1454). -/
def enrichGenericContent (content : String) (_settings : Settings) : String :=
  collapseNewlines (fixSpacing content)

/-- The `try`-block body of `enrichContent` (lines 1336-1363): the
settings-based icon stripping followed by the platform `switch`. -/
def enrichBody (content : String) (format : String) (settings : Settings) : String :=
  let base :=
    if !settings.enableIcons then replaceDashes (stripIcons content) else content
  match format with
  | "twitter-post" => enrichTwitterContent base settings
  | "linkedin-post" => enrichLinkedInContent base settings
  | "peerlist-article" => enrichPeerlistContent base settings
  | "dailydev-article" => enrichDailyDevContent base settings
  | _ => enrichGenericContent base settings

/-- The `try`-block of `enrichContent` at the JS value level.  The `content`
argument of the JS function is an arbitrary value; the embedding distinguishes
strings (`some`) from `null`/`undefined` (`none`).  On a non-string the first
internal step (`enriched.replace(...)`, or `content.split` inside a platform
helper) throws a `TypeError`, which is the error the surrounding `catch`
intercepts. -/
def enrichInner (content : Option String) (format : String) (settings : Settings) :
    Except Unit String :=
  match content with
  | some c => Except.ok (enrichBody c format settings)
  | none => Except.error ()

/-- Embedding of `enrichContent` (lines 1334-1368): run the body; if it
throws, `logError` fires and the original `content` is returned unchanged
(line 1366). -/
def enrichContent (content : Option String) (format : String) (settings : Settings) :
    Option String :=
  match enrichInner content format settings with
  | Except.ok r => some r
  | Except.error _ => content

/-- `enrichContent` specialised to the string inputs the success path of
`processWithAI` feeds it (line 672). -/
def enrichContentS (content : String) (format : String) (settings : Settings) : String :=
  (enrichContent (some content) format settings).getD content

/-! ## `processWithAI` (lines 549-766) -/

/-- The terminal outcome of one `processWithAI` invocation. -/
inductive Outcome where
  | validationError
  | busy
  | success (text : String)
  | failureHandled (errName : String) (errMessage : String)
deriving DecidableEq

/-- The observable trace of one `processWithAI` invocation: the state at
return, the number of fetches issued, the backoff waits performed, the number
of `autoFormatLocal()` calls, the notifications shown, and the terminal
outcome. -/
structure RunResult where
  state : ProcState
  requests : Nat
  sleeps : List Nat
  fallbackCalls : Nat
  notifs : List Notif
  outcome : Outcome

/-- The error-message classification of the outer `catch` (lines 723-737),
building the user-facing `userMessage` from `error.message`. -/
def classifyUserMessage (msg : String) : String :=
  if strContains msg ("fetch") then
    "❌ Processing failed: Network connection issue. Please check your internet connection."
  else if strContains msg ("timeout") then
    "❌ Processing failed: Request timed out. The service may be busy, please try again."
  else if strContains msg ("401") || strContains msg ("403") then
    "❌ Processing failed: Authentication error. Please refresh the page."
  else if strContains msg ("429") then
    "❌ Processing failed: Rate limit exceeded. Please wait a moment before trying again."
  else if strContains msg ("500") || strContains msg ("502") || strContains msg ("503") then
    "❌ Processing failed: Server error. Please try again later."
  else "❌ Processing failed: " ++ (if msg = "" then "Unknown error occurred" else msg)

/-- The post-validation body of `processWithAI` (lines 589-765): run the retry
loop; on success enrich and store the text (lines 659-687); on a loop-escaping
error run the outer catch — classify the message, attempt the local fallback
(lines 741-754, `CONFIG.ENABLE_LOCAL_FALLBACK` is `undefined`, so the guard
`!== false` holds), whose `undefined` return value makes the
`localResult && localResult !== content` guard always false — and in both
cases clear `isProcessing` in the `finally` block (lines 756-765). -/
def runMain (env : Nat → FetchOutcome) (format : String) (settings : Settings)
    (st : ProcState) (content : String) : RunResult :=
  let lr := attemptLoop env CONFIG.RETRY_ATTEMPTS 1 CONFIG.RETRY_ATTEMPTS
  match lr.result with
  | Except.ok t =>
      let enriched := enrichContentS t format settings
      ⟨⟨enriched, false⟩, lr.requests, lr.sleeps, 0,
        lr.notifs ++ [⟨"✨ " ++ format ++ " formatting completed!", Sev.success⟩],
        Outcome.success enriched⟩
  | Except.error e =>
      let userMessage := classifyUserMessage e.message
      let fb := autoFormatLocal ⟨st.editorValue, true⟩
      let localResult := fb.2.2
      let applied :=
        match localResult with
        | some r => r != "" && r != content
        | none => false
      let stApplied : ProcState := if applied then ⟨localResult.getD "", true⟩ else fb.1
      ⟨⟨stApplied.editorValue, false⟩, lr.requests, lr.sleeps, 1,
        lr.notifs ++
          [⟨userMessage, Sev.error⟩, ⟨"🔄 Trying local fallback formatting...", Sev.info⟩] ++
          fb.2.1 ++
          (if applied then [⟨"✅ Local fallback formatting applied", Sev.success⟩] else []),
        Outcome.failureHandled e.name e.message⟩

/-- Embedding of `processWithAI` (lines 549-766).  The validation checks on
the trimmed editor content (lines 556-567) and the concurrency guard
(lines 569-573) run before `isProcessing` is set (line 575); each returns
without touching the state or the network. -/
def processWithAI (env : Nat → FetchOutcome) (format : String) (settings : Settings)
    (st : ProcState) : RunResult :=
  let content := jsTrim st.editorValue
  if content = "" then
    ⟨st, 0, [], 0, [⟨"📝 Please enter some text to process first", Sev.warning⟩],
      Outcome.validationError⟩
  else if CONFIG.MAX_TEXT_LENGTH < content.length then
    ⟨st, 0, [], 0,
      [⟨"⚠️ Text is too long. Please limit to " ++ toString CONFIG.MAX_TEXT_LENGTH ++
          " characters. Current: " ++ toString content.length, Sev.warning⟩],
      Outcome.validationError⟩
  else if st.isProcessing then
    ⟨st, 0, [], 0, [⟨"⏳ Please wait for current processing to complete", Sev.info⟩],
      Outcome.busy⟩
  else runMain env format settings st content

/-! ## Failure classifications and retry-loop lemmas -/

/-- The spec-level retryable failures the loop actually retries: a non-2xx
response or a network failure (a rejected fetch).  A timeout (`AbortError`)
is deliberately not in this class — see the `AbortError` rethrow at
line 696-698 — and a malformed 2xx body is classified separately by
`isMalformedOk`. -/
def isRetryableFail : FetchOutcome → Bool
  | FetchOutcome.httpError _ _ _ => true
  | FetchOutcome.networkError _ => true
  | _ => false

/-- A 2xx response whose body fails the `result.success && result.processedText`
check of line 659: success flag not `true`, or `processedText` missing/empty. -/
def isMalformedOk : FetchOutcome → Bool
  | FetchOutcome.httpOk success pt _ => !(success && truthyOptStr pt)
  | _ => false

/-- The class of attempt outcomes that the code's `catch` block actually
retries: anything that throws whose error name is not `AbortError`. -/
def failsRetryablyInCode (f : FetchOutcome) : Bool :=
  match attemptOnce f with
  | Except.error e => e.name != "AbortError"
  | Except.ok _ => false

theorem retryable_fails_in_code {f : FetchOutcome} (h : isRetryableFail f = true) :
    failsRetryablyInCode f = true := by
  cases f <;> simp_all [isRetryableFail, failsRetryablyInCode, attemptOnce]

theorem malformed_fails_in_code {f : FetchOutcome} (h : isMalformedOk f = true) :
    failsRetryablyInCode f = true := by
  cases f with
  | httpOk s pt e =>
      have hb : (s && truthyOptStr pt) = false := by
        have := h
        simp only [isMalformedOk, Bool.not_eq_true'] at this
        exact this
      simp [failsRetryablyInCode, attemptOnce, hb]
  | httpError st stx er => simp [failsRetryablyInCode, attemptOnce]
  | networkError m => simp [failsRetryablyInCode, attemptOnce]
  | abortError => simp [isMalformedOk] at h

theorem fails_in_code_spec {f : FetchOutcome} (h : failsRetryablyInCode f = true) :
    ∃ e, attemptOnce f = Except.error e ∧ e.name ≠ "AbortError" := by
  unfold failsRetryablyInCode at h
  cases hf : attemptOnce f with
  | ok t => rw [hf] at h; simp at h
  | error e => rw [hf] at h; exact ⟨e, rfl, by simpa using h⟩

/-- If the attempts `a, a+1, …, a+j-1` all fail with retryable (non-abort)
errors and attempt `a+j` returns processed text `t`, the loop starting at
attempt `a` with `r` iterations left (`a + r = maxA + 1`, `j < r`) issues
exactly `j + 1` requests, sleeps `2^(a+i)·1000` ms before each retry, and
returns `t`. -/
theorem attemptLoop_ok (env : Nat → FetchOutcome) (maxA : Nat) (t : String) :
    ∀ j a r, a + r = maxA + 1 → j < r →
    (∀ n, a ≤ n → n < a + j → failsRetryablyInCode (env n) = true) →
    attemptOnce (env (a + j)) = Except.ok t →
    (attemptLoop env maxA a r).requests = j + 1 ∧
    (attemptLoop env maxA a r).sleeps = (List.range j).map (fun i => 2 ^ (a + i) * 1000) ∧
    (attemptLoop env maxA a r).result = Except.ok t := by
  intro j
  induction j with
  | zero =>
      intro a r _ hjr _ hsucc
      obtain ⟨r', rfl⟩ : ∃ r', r = r' + 1 := ⟨r - 1, by omega⟩
      rw [Nat.add_zero] at hsucc
      simp [attemptLoop, hsucc]
  | succ j ih =>
      intro a r hr hjr hfail hsucc
      obtain ⟨r', rfl⟩ : ∃ r', r = r' + 1 := ⟨r - 1, by omega⟩
      obtain ⟨e, he, hename⟩ :=
        fails_in_code_spec (hfail a (Nat.le_refl a) (by omega))
      have hamax : a ≠ maxA := by omega
      have hih := ih (a + 1) r' (by omega) (by omega)
        (fun n h1 h2 => hfail n (by omega) (by omega))
        (by rw [show a + 1 + j = a + (j + 1) from by omega]; exact hsucc)
      have hcons :
          (2 ^ a * 1000) :: (List.range j).map (fun i => 2 ^ (a + 1 + i) * 1000) =
            (List.range (j + 1)).map (fun i => 2 ^ (a + i) * 1000) := by
        rw [List.range_succ_eq_map, List.map_cons, List.map_map]
        refine congrArg₂ _ (by rw [Nat.add_zero]) ?_
        refine List.map_congr_left (fun i _ => ?_)
        simp only [Function.comp]
        rw [show a + Nat.succ i = a + 1 + i from by omega]
      simp only [attemptLoop, he, hename, if_neg, hamax, ite_false]
      refine ⟨by rw [hih.1], ?_, hih.2.2⟩
      rw [hih.2.1]
      exact hcons

/-- If the attempts before `a+j` fail with retryable errors and attempt `a+j`
is aborted by the per-attempt timeout, the loop stops at attempt `a+j`:
no further request, no further backoff, and the dedicated timeout error
escapes. -/
theorem attemptLoop_timeout (env : Nat → FetchOutcome) (maxA : Nat) :
    ∀ j a r, a + r = maxA + 1 → j < r →
    (∀ n, a ≤ n → n < a + j → failsRetryablyInCode (env n) = true) →
    env (a + j) = FetchOutcome.abortError →
    (attemptLoop env maxA a r).requests = j + 1 ∧
    (attemptLoop env maxA a r).sleeps = (List.range j).map (fun i => 2 ^ (a + i) * 1000) ∧
    (attemptLoop env maxA a r).result = Except.error timeoutErr := by
  intro j
  induction j with
  | zero =>
      intro a r _ hjr _ habort
      obtain ⟨r', rfl⟩ : ∃ r', r = r' + 1 := ⟨r - 1, by omega⟩
      rw [Nat.add_zero] at habort
      simp [attemptLoop, habort, attemptOnce]
  | succ j ih =>
      intro a r hr hjr hfail habort
      obtain ⟨r', rfl⟩ : ∃ r', r = r' + 1 := ⟨r - 1, by omega⟩
      obtain ⟨e, he, hename⟩ :=
        fails_in_code_spec (hfail a (Nat.le_refl a) (by omega))
      have hamax : a ≠ maxA := by omega
      have hih := ih (a + 1) r' (by omega) (by omega)
        (fun n h1 h2 => hfail n (by omega) (by omega))
        (by rw [show a + 1 + j = a + (j + 1) from by omega]; exact habort)
      have hcons :
          (2 ^ a * 1000) :: (List.range j).map (fun i => 2 ^ (a + 1 + i) * 1000) =
            (List.range (j + 1)).map (fun i => 2 ^ (a + i) * 1000) := by
        rw [List.range_succ_eq_map, List.map_cons, List.map_map]
        refine congrArg₂ _ (by rw [Nat.add_zero]) ?_
        refine List.map_congr_left (fun i _ => ?_)
        simp only [Function.comp]
        rw [show a + Nat.succ i = a + 1 + i from by omega]
      simp only [attemptLoop, he, hename, if_neg, hamax, ite_false]
      refine ⟨by rw [hih.1], ?_, hih.2.2⟩
      rw [hih.2.1]
      exact hcons

/-- If every attempt from `a` through `maxA` fails with a retryable
(non-abort) error, the loop runs all its iterations and propagates the error
of the final attempt. -/
theorem attemptLoop_exhausts (env : Nat → FetchOutcome) (maxA : Nat) :
    ∀ r a, a + r = maxA + 1 → 1 ≤ r →
    (∀ n, a ≤ n → n ≤ maxA → failsRetryablyInCode (env n) = true) →
    (attemptLoop env maxA a r).requests = r ∧
    (attemptLoop env maxA a r).sleeps =
      (List.range (r - 1)).map (fun i => 2 ^ (a + i) * 1000) ∧
    (attemptLoop env maxA a r).result = Except.error (attemptErr (env maxA)) := by
  intro r
  induction r with
  | zero => intro a _ h1; omega
  | succ r' ih =>
      intro a hr _ hfail
      obtain ⟨e, he, hename⟩ :=
        fails_in_code_spec (hfail a (Nat.le_refl a) (by omega))
      rcases Nat.eq_zero_or_pos r' with hr0 | hr1
      · subst hr0
        have hamax : a = maxA := by omega
        subst hamax
        simp [attemptLoop, he, hename, attemptErr]
      · have hamax : a ≠ maxA := by omega
        have hih := ih (a + 1) (by omega) hr1
          (fun n h1 h2 => hfail n (by omega) h2)
        have hcons :
            (2 ^ a * 1000) :: (List.range (r' - 1)).map (fun i => 2 ^ (a + 1 + i) * 1000) =
              (List.range r').map (fun i => 2 ^ (a + i) * 1000) := by
          obtain ⟨r'', rfl⟩ : ∃ r'', r' = r'' + 1 := ⟨r' - 1, by omega⟩
          rw [List.range_succ_eq_map, List.map_cons, List.map_map]
          refine congrArg₂ _ (by rw [Nat.add_zero]) ?_
          refine List.map_congr_left (fun i _ => ?_)
          simp only [Function.comp]
          rw [show a + Nat.succ i = a + 1 + i from by omega]
        simp only [attemptLoop, he, hename, if_neg, hamax, ite_false]
        refine ⟨by rw [hih.1], ?_, hih.2.2⟩
        rw [hih.2.1]
        simpa using hcons

/-- Every notification shown inside the retry loop has `info` severity. -/
theorem attemptLoop_notifs_info (env : Nat → FetchOutcome) (maxA : Nat) :
    ∀ r a, ∀ nf ∈ (attemptLoop env maxA a r).notifs, nf.sev = Sev.info := by
  intro r
  induction r with
  | zero => intro a nf h; simp [attemptLoop] at h
  | succ r' ih =>
      intro a nf h
      simp only [attemptLoop] at h
      cases hf : attemptOnce (env a) with
      | ok t =>
          rw [hf] at h
          simp at h
          rw [h]
      | error e =>
          rw [hf] at h
          by_cases hn : e.name = "AbortError"
          · simp [hn] at h
            rw [h]
          · by_cases ha : a = maxA
            · simp [hn, ha] at h
              rw [h]
            · simp [hn, ha] at h
              rcases h with h | h | h
              · rw [h]
              · rw [h]
              · exact ih (a + 1) nf h

/-! ## Pipeline-level lemmas -/

/-- On valid input (non-empty and within the length limit after trimming) with
no processing in flight, `processWithAI` runs its main body. -/
theorem processWithAI_valid (env : Nat → FetchOutcome) (format : String)
    (settings : Settings) (st : ProcState) (hne : jsTrim st.editorValue ≠ "")
    (hlen : (jsTrim st.editorValue).length ≤ CONFIG.MAX_TEXT_LENGTH)
    (hb : st.isProcessing = false) :
    processWithAI env format settings st =
      runMain env format settings st (jsTrim st.editorValue) := by
  unfold processWithAI
  rw [if_neg hne, if_neg (by omega), if_neg (by simp [hb])]

/-- When the retry loop returns processed text `t`, the main body stores the
enriched text, clears the flag, and reports success; the retry-loop trace is
passed through and no fallback runs. -/
theorem runMain_ok (env : Nat → FetchOutcome) (format : String) (settings : Settings)
    (st : ProcState) (content : String) (t : String)
    (h : (attemptLoop env CONFIG.RETRY_ATTEMPTS 1 CONFIG.RETRY_ATTEMPTS).result =
      Except.ok t) :
    runMain env format settings st content =
      ⟨⟨enrichContentS t format settings, false⟩,
        (attemptLoop env CONFIG.RETRY_ATTEMPTS 1 CONFIG.RETRY_ATTEMPTS).requests,
        (attemptLoop env CONFIG.RETRY_ATTEMPTS 1 CONFIG.RETRY_ATTEMPTS).sleeps, 0,
        (attemptLoop env CONFIG.RETRY_ATTEMPTS 1 CONFIG.RETRY_ATTEMPTS).notifs ++
          [⟨"✨ " ++ format ++ " formatting completed!", Sev.success⟩],
        Outcome.success (enrichContentS t format settings)⟩ := by
  simp only [runMain]
  rw [h]

/-- When an error escapes the retry loop, the main body classifies it, runs
`autoFormatLocal` once (which rewrites the editor and shows an info
notification; its `undefined` return value keeps the conditional
degraded-success branch dead), clears the flag, and reports the loop error. -/
theorem runMain_error (env : Nat → FetchOutcome) (format : String) (settings : Settings)
    (st : ProcState) (content : String) (e : JsError)
    (h : (attemptLoop env CONFIG.RETRY_ATTEMPTS 1 CONFIG.RETRY_ATTEMPTS).result =
      Except.error e) :
    runMain env format settings st content =
      ⟨⟨autoFormatLocalBody st.editorValue, false⟩,
        (attemptLoop env CONFIG.RETRY_ATTEMPTS 1 CONFIG.RETRY_ATTEMPTS).requests,
        (attemptLoop env CONFIG.RETRY_ATTEMPTS 1 CONFIG.RETRY_ATTEMPTS).sleeps, 1,
        (attemptLoop env CONFIG.RETRY_ATTEMPTS 1 CONFIG.RETRY_ATTEMPTS).notifs ++
          [⟨classifyUserMessage e.message, Sev.error⟩,
            ⟨"🔄 Trying local fallback formatting...", Sev.info⟩,
            ⟨"📝 Local formatting applied", Sev.info⟩],
        Outcome.failureHandled e.name e.message⟩ := by
  simp only [runMain]
  rw [h]
  simp [autoFormatLocal]

/-! ## Claim theorems -/

/-- Shared concrete inputs for witnesses: an idle editor holding `"Hello"`. -/
def stIdle : ProcState := ⟨"Hello", false⟩

/-- Environment: attempt 1 fails with HTTP 500, later attempts succeed. -/
def envC1 : Nat → FetchOutcome := fun n =>
  if n = 1 then FetchOutcome.httpError 500 ("Internal Server Error") (some "Server error")
  else FetchOutcome.httpOk true (some "ok") none

/-- C1: In every run of `processWithAI` on accepted input in which the first
`k-1` attempts fail retryably (non-2xx response or network failure, the
failures the loop retries) and the `k`-th attempt succeeds
(`k ≤ CONFIG.RETRY_ATTEMPTS`), exactly `min k CONFIG.RETRY_ATTEMPTS` requests
are issued and the suspension before attempt `n+1` lasts exactly
`2^n * 1000` milliseconds. -/
theorem processWithAI_retry_count_and_backoff
    (env : Nat → FetchOutcome) (format : String) (settings : Settings) (st : ProcState)
    (k : Nat) (t : String) (hk1 : 1 ≤ k) (hk : k ≤ CONFIG.RETRY_ATTEMPTS)
    (hfail : ∀ n, n < k → 1 ≤ n → isRetryableFail (env n) = true)
    (hsucc : attemptOnce (env k) = Except.ok t)
    (hne : jsTrim st.editorValue ≠ "")
    (hlen : (jsTrim st.editorValue).length ≤ CONFIG.MAX_TEXT_LENGTH)
    (hb : st.isProcessing = false) :
    (processWithAI env format settings st).requests = min k CONFIG.RETRY_ATTEMPTS ∧
    (processWithAI env format settings st).sleeps =
      (List.range (k - 1)).map (fun n => 2 ^ (n + 1) * 1000) ∧
    (processWithAI env format settings st).outcome =
      Outcome.success (enrichContentS t format settings) := by
  have hloop := attemptLoop_ok env CONFIG.RETRY_ATTEMPTS t (k - 1) 1 CONFIG.RETRY_ATTEMPTS
    (by omega) (by omega)
    (fun n h1 h2 => retryable_fails_in_code (hfail n (by omega) h1))
    (by rw [show 1 + (k - 1) = k from by omega]; exact hsucc)
  rw [processWithAI_valid env format settings st hne hlen hb,
    runMain_ok env format settings st _ t hloop.2.2]
  refine ⟨?_, ?_, rfl⟩
  · show (attemptLoop env CONFIG.RETRY_ATTEMPTS 1 CONFIG.RETRY_ATTEMPTS).requests =
      min k CONFIG.RETRY_ATTEMPTS
    rw [hloop.1]
    omega
  rw [hloop.2.1]
  exact List.map_congr_left (fun i _ => by rw [show 1 + i = i + 1 from by omega])

/-- Witness for C1: with HTTP 500 on attempt 1 and success on attempt 2,
the run issues 2 requests and sleeps 2000 ms once. -/
theorem processWithAI_retry_count_and_backoff_witness :
    (processWithAI envC1 "tutorial" defaultSettings stIdle).requests =
      min 2 CONFIG.RETRY_ATTEMPTS ∧
    (processWithAI envC1 "tutorial" defaultSettings stIdle).sleeps =
      (List.range 1).map (fun n => 2 ^ (n + 1) * 1000) ∧
    (processWithAI envC1 "tutorial" defaultSettings stIdle).outcome =
      Outcome.success (enrichContentS "ok" "tutorial" defaultSettings) :=
  processWithAI_retry_count_and_backoff envC1 "tutorial" defaultSettings stIdle 2 "ok"
    (by decide) (by decide)
    (fun n h1 h2 => by interval_cases n; decide)
    (by rfl) (by decide) (by decide) (by decide)

/-- Environment: attempt 1 is aborted by the timeout; attempt 2 would
succeed. -/
def envC2 : Nat → FetchOutcome := fun n =>
  if n = 1 then FetchOutcome.abortError else FetchOutcome.httpOk true (some "ok") none

/-- C2 counterexample: attempt 1 times out while two attempts remain and the
next attempt would succeed, yet the run issues exactly one request, performs
no backoff, and terminates with the timeout error — the timed-out attempt is
not followed by another attempt. -/
theorem timeout_not_retried_counterexample :
    (processWithAI envC2 "tutorial" defaultSettings stIdle).requests = 1 ∧
    (processWithAI envC2 "tutorial" defaultSettings stIdle).sleeps = [] ∧
    (processWithAI envC2 "tutorial" defaultSettings stIdle).outcome =
      Outcome.failureHandled "Error" "Processing timeout after 30 seconds" := by
  exact ⟨by decide, by decide, by decide⟩

/-- C2 (amended): a per-attempt timeout after `CONFIG.TIMEOUT_MS` is NOT
retryable: when attempt `k` is aborted by the timeout (after `k-1` retryable
failures), the loop terminates immediately with exactly `k` requests and no
further backoff, and the failure is reported with the dedicated timeout
message. -/
theorem timeout_aborts_loop (env : Nat → FetchOutcome) (format : String)
    (settings : Settings) (st : ProcState) (k : Nat)
    (hk1 : 1 ≤ k) (hk : k ≤ CONFIG.RETRY_ATTEMPTS)
    (hfail : ∀ n, n < k → 1 ≤ n → failsRetryablyInCode (env n) = true)
    (habort : env k = FetchOutcome.abortError)
    (hne : jsTrim st.editorValue ≠ "")
    (hlen : (jsTrim st.editorValue).length ≤ CONFIG.MAX_TEXT_LENGTH)
    (hb : st.isProcessing = false) :
    (processWithAI env format settings st).requests = k ∧
    (processWithAI env format settings st).sleeps =
      (List.range (k - 1)).map (fun n => 2 ^ (n + 1) * 1000) ∧
    (processWithAI env format settings st).outcome =
      Outcome.failureHandled "Error" ("Processing timeout after 30 seconds") ∧
    (⟨"❌ Processing failed: Request timed out. The service may be busy, please try again.",
        Sev.error⟩ ∈ (processWithAI env format settings st).notifs) := by
  have hloop := attemptLoop_timeout env CONFIG.RETRY_ATTEMPTS (k - 1) 1 CONFIG.RETRY_ATTEMPTS
    (by omega) (by omega)
    (fun n h1 h2 => hfail n (by omega) h1)
    (by rw [show 1 + (k - 1) = k from by omega]; exact habort)
  rw [processWithAI_valid env format settings st hne hlen hb,
    runMain_error env format settings st _ timeoutErr hloop.2.2]
  refine ⟨?_, ?_, ?_, ?_⟩
  · show (attemptLoop env CONFIG.RETRY_ATTEMPTS 1 CONFIG.RETRY_ATTEMPTS).requests = k
    rw [hloop.1]
    omega
  · rw [hloop.2.1]
    exact List.map_congr_left (fun i _ => by rw [show 1 + i = i + 1 from by omega])
  · rfl
  · refine List.mem_append.mpr (Or.inr ?_)
    have hclass : classifyUserMessage timeoutErr.message =
        "❌ Processing failed: Request timed out. The service may be busy, please try again." := by
      decide
    rw [hclass]
    exact List.mem_cons_self _ _

/-- Witness for the C2 amended theorem: one HTTP 500, then a timeout on
attempt 2. -/
theorem timeout_aborts_loop_witness :
    (processWithAI (fun n => if n = 2 then FetchOutcome.abortError else envC1 n)
        "tutorial" defaultSettings stIdle).requests = 2 ∧
    (processWithAI (fun n => if n = 2 then FetchOutcome.abortError else envC1 n)
        "tutorial" defaultSettings stIdle).sleeps =
      (List.range 1).map (fun n => 2 ^ (n + 1) * 1000) ∧
    (processWithAI (fun n => if n = 2 then FetchOutcome.abortError else envC1 n)
        "tutorial" defaultSettings stIdle).outcome =
      Outcome.failureHandled "Error" ("Processing timeout after 30 seconds") ∧
    (⟨"❌ Processing failed: Request timed out. The service may be busy, please try again.",
        Sev.error⟩ ∈
      (processWithAI (fun n => if n = 2 then FetchOutcome.abortError else envC1 n)
        "tutorial" defaultSettings stIdle).notifs) :=
  timeout_aborts_loop (fun n => if n = 2 then FetchOutcome.abortError else envC1 n)
    "tutorial" defaultSettings stIdle 2 (by decide) (by decide)
    (fun n h1 h2 => by interval_cases n; decide)
    (by decide) (by decide) (by decide) (by decide)

/-- Environment: attempt 1 returns 2xx with `success: true` but no
`processedText` (a malformed success body); attempt 2 succeeds. -/
def envC3 : Nat → FetchOutcome := fun n =>
  if n = 1 then FetchOutcome.httpOk true none none
  else FetchOutcome.httpOk true (some "ok") none

/-- C3 counterexample: after a malformed 2xx response on attempt 1 the run
issues a second request (after a 2000 ms backoff) instead of moving directly
to the exhausted/fallback path, and ends in success. -/
theorem malformed_ok_retried_counterexample :
    (processWithAI envC3 "tutorial" defaultSettings stIdle).requests = 2 ∧
    (processWithAI envC3 "tutorial" defaultSettings stIdle).sleeps = [2000] ∧
    (processWithAI envC3 "tutorial" defaultSettings stIdle).fallbackCalls = 0 ∧
    (processWithAI envC3 "tutorial" defaultSettings stIdle).outcome =
      Outcome.success "ok" := by
  exact ⟨by decide, by decide, by decide, by decide⟩

/-- C3 (amended): a 2xx response whose body lacks the expected fields
(success flag not true, or `processedText` missing/empty) is treated as a
RETRYABLE failure like any other error thrown in the attempt: when the first
`k-1` responses are malformed-2xx and attempt `k` succeeds, the loop backs
off and retries, issuing `min k CONFIG.RETRY_ATTEMPTS` requests in total. -/
theorem malformed_ok_is_retryable
    (env : Nat → FetchOutcome) (format : String) (settings : Settings) (st : ProcState)
    (k : Nat) (t : String) (hk1 : 1 ≤ k) (hk : k ≤ CONFIG.RETRY_ATTEMPTS)
    (hfail : ∀ n, n < k → 1 ≤ n → isMalformedOk (env n) = true)
    (hsucc : attemptOnce (env k) = Except.ok t)
    (hne : jsTrim st.editorValue ≠ "")
    (hlen : (jsTrim st.editorValue).length ≤ CONFIG.MAX_TEXT_LENGTH)
    (hb : st.isProcessing = false) :
    (processWithAI env format settings st).requests = min k CONFIG.RETRY_ATTEMPTS ∧
    (processWithAI env format settings st).sleeps =
      (List.range (k - 1)).map (fun n => 2 ^ (n + 1) * 1000) ∧
    (processWithAI env format settings st).outcome =
      Outcome.success (enrichContentS t format settings) := by
  have hloop := attemptLoop_ok env CONFIG.RETRY_ATTEMPTS t (k - 1) 1 CONFIG.RETRY_ATTEMPTS
    (by omega) (by omega)
    (fun n h1 h2 => malformed_fails_in_code (hfail n (by omega) h1))
    (by rw [show 1 + (k - 1) = k from by omega]; exact hsucc)
  rw [processWithAI_valid env format settings st hne hlen hb,
    runMain_ok env format settings st _ t hloop.2.2]
  refine ⟨?_, ?_, rfl⟩
  · show (attemptLoop env CONFIG.RETRY_ATTEMPTS 1 CONFIG.RETRY_ATTEMPTS).requests =
      min k CONFIG.RETRY_ATTEMPTS
    rw [hloop.1]
    omega
  rw [hloop.2.1]
  exact List.map_congr_left (fun i _ => by rw [show 1 + i = i + 1 from by omega])

/-- Witness for the C3 amended theorem. -/
theorem malformed_ok_is_retryable_witness :
    (processWithAI envC3 "tutorial" defaultSettings stIdle).requests =
      min 2 CONFIG.RETRY_ATTEMPTS ∧
    (processWithAI envC3 "tutorial" defaultSettings stIdle).sleeps =
      (List.range 1).map (fun n => 2 ^ (n + 1) * 1000) ∧
    (processWithAI envC3 "tutorial" defaultSettings stIdle).outcome =
      Outcome.success (enrichContentS "ok" "tutorial" defaultSettings) :=
  malformed_ok_is_retryable envC3 "tutorial" defaultSettings stIdle 2 "ok"
    (by decide) (by decide)
    (fun n h1 h2 => by interval_cases n; decide)
    (by rfl) (by decide) (by decide) (by decide)

/-- C4: On input that is empty after trimming or whose trimmed length exceeds
`CONFIG.MAX_TEXT_LENGTH`, `processWithAI` returns a validation error before
issuing any network request, before running any fallback, and without touching
the state (in particular `isProcessing` is never set). -/
theorem validation_rejects_before_lock
    (env : Nat → FetchOutcome) (format : String) (settings : Settings) (st : ProcState)
    (h : jsTrim st.editorValue = "" ∨
      CONFIG.MAX_TEXT_LENGTH < (jsTrim st.editorValue).length) :
    (processWithAI env format settings st).requests = 0 ∧
    (processWithAI env format settings st).state = st ∧
    (processWithAI env format settings st).fallbackCalls = 0 ∧
    (processWithAI env format settings st).outcome = Outcome.validationError := by
  simp only [processWithAI]
  rcases h with h | h
  · rw [if_pos h]
    exact ⟨rfl, rfl, rfl, rfl⟩
  · by_cases h0 : jsTrim st.editorValue = ""
    · rw [if_pos h0]
      exact ⟨rfl, rfl, rfl, rfl⟩
    · rw [if_neg h0, if_pos h]
      exact ⟨rfl, rfl, rfl, rfl⟩

/-- A whitespace-only editor state. -/
def stBlank : ProcState := ⟨"   ", false⟩

/-- Witness for C4: whitespace-only input is rejected with no request and no
state change. -/
theorem validation_rejects_before_lock_witness :
    (processWithAI envC1 "tutorial" defaultSettings stBlank).requests = 0 ∧
    (processWithAI envC1 "tutorial" defaultSettings stBlank).state = stBlank ∧
    (processWithAI envC1 "tutorial" defaultSettings stBlank).fallbackCalls = 0 ∧
    (processWithAI envC1 "tutorial" defaultSettings stBlank).outcome =
      Outcome.validationError :=
  validation_rejects_before_lock envC1 "tutorial" defaultSettings stBlank
    (Or.inl (by decide))

/-- C5: A call made on otherwise-valid input while a prior invocation's
`isProcessing` flag is still set returns immediately with the busy rejection,
issues no request, runs no fallback, and leaves the state — editor value and
`isProcessing` flag — exactly as it was, so it never queues behind the
in-flight call. -/
theorem busy_rejected_without_mutation
    (env : Nat → FetchOutcome) (format : String) (settings : Settings) (st : ProcState)
    (hne : jsTrim st.editorValue ≠ "")
    (hlen : (jsTrim st.editorValue).length ≤ CONFIG.MAX_TEXT_LENGTH)
    (hbusy : st.isProcessing = true) :
    (processWithAI env format settings st).outcome = Outcome.busy ∧
    (processWithAI env format settings st).state = st ∧
    (processWithAI env format settings st).requests = 0 ∧
    (processWithAI env format settings st).fallbackCalls = 0 := by
  simp only [processWithAI]
  rw [if_neg hne, if_neg (by omega), if_pos hbusy]
  exact ⟨rfl, rfl, rfl, rfl⟩

/-- An editor state with a processing run already in flight. -/
def stBusy : ProcState := ⟨"Hello", true⟩

/-- Witness for C5. -/
theorem busy_rejected_without_mutation_witness :
    (processWithAI envC1 "tutorial" defaultSettings stBusy).outcome = Outcome.busy ∧
    (processWithAI envC1 "tutorial" defaultSettings stBusy).state = stBusy ∧
    (processWithAI envC1 "tutorial" defaultSettings stBusy).requests = 0 ∧
    (processWithAI envC1 "tutorial" defaultSettings stBusy).fallbackCalls = 0 :=
  busy_rejected_without_mutation envC1 "tutorial" defaultSettings stBusy
    (by decide) (by decide) (by decide)

/-- C6: For every invocation entered when no processing is in flight,
`isProcessing` is false immediately after the call terminates — on the
validation-error path it was never set, and both the success and the
exhausted/fallback path clear it in the `finally` block — and the caller
receives exactly one terminal outcome (validation error, success text, or a
handled failure). -/
theorem lock_cleared_on_all_exits
    (env : Nat → FetchOutcome) (format : String) (settings : Settings) (st : ProcState)
    (hb : st.isProcessing = false) :
    (processWithAI env format settings st).state.isProcessing = false ∧
    ((processWithAI env format settings st).outcome = Outcome.validationError ∨
      (∃ t, (processWithAI env format settings st).outcome = Outcome.success t) ∨
      (∃ n m, (processWithAI env format settings st).outcome =
        Outcome.failureHandled n m)) := by
  by_cases h1 : jsTrim st.editorValue = ""
  · simp only [processWithAI]
    rw [if_pos h1]
    exact ⟨hb, Or.inl rfl⟩
  · by_cases h2 : CONFIG.MAX_TEXT_LENGTH < (jsTrim st.editorValue).length
    · simp only [processWithAI]
      rw [if_neg h1, if_pos h2]
      exact ⟨hb, Or.inl rfl⟩
    · rw [processWithAI_valid env format settings st h1 (by omega) hb]
      cases hres : (attemptLoop env CONFIG.RETRY_ATTEMPTS 1 CONFIG.RETRY_ATTEMPTS).result with
      | ok t =>
          rw [runMain_ok env format settings st _ t hres]
          exact ⟨rfl, Or.inr (Or.inl ⟨_, rfl⟩)⟩
      | error e =>
          rw [runMain_error env format settings st _ e hres]
          exact ⟨rfl, Or.inr (Or.inr ⟨_, _, rfl⟩)⟩

/-- Witness for C6. -/
theorem lock_cleared_on_all_exits_witness :
    (processWithAI envC1 "tutorial" defaultSettings stIdle).state.isProcessing = false ∧
    ((processWithAI envC1 "tutorial" defaultSettings stIdle).outcome =
        Outcome.validationError ∨
      (∃ t, (processWithAI envC1 "tutorial" defaultSettings stIdle).outcome =
        Outcome.success t) ∨
      (∃ n m, (processWithAI envC1 "tutorial" defaultSettings stIdle).outcome =
        Outcome.failureHandled n m)) :=
  lock_cleared_on_all_exits envC1 "tutorial" defaultSettings stIdle (by decide)

/-- Environment where every attempt fails with HTTP 500. -/
def envAll500 : Nat → FetchOutcome := fun _ =>
  FetchOutcome.httpError 500 ("Internal Server Error") (some "Server error")

/-- Editor state whose value has leading whitespace, so the trimmed `content`
argument differs from `editor.value`. -/
def stLead : ProcState := ⟨"  Hello", false⟩

/-- C7 counterexample: all three attempts fail retryably; the fallback runs
once and its output (`"##   Hello"`) differs from the original input, yet no
degraded-success notification is ever shown (the `localResult` guard compares
the `undefined` return value of `autoFormatLocal`), the editor is rewritten
unconditionally with the formatting of the raw `editor.value` (not of the
trimmed `content` argument — the function takes no argument), and the terminal
outcome is still the original network error. -/
theorem fallback_not_surfaced_counterexample :
    (processWithAI envAll500 "tutorial" defaultSettings stLead).fallbackCalls = 1 ∧
    (processWithAI envAll500 "tutorial" defaultSettings stLead).state.editorValue =
      "##   Hello" ∧
    ("##   Hello" : String) ≠ stLead.editorValue ∧
    autoFormatLocalBody (jsTrim stLead.editorValue) ≠ "##   Hello" ∧
    (⟨"✅ Local fallback formatting applied", Sev.success⟩ ∉
      (processWithAI envAll500 "tutorial" defaultSettings stLead).notifs) ∧
    (processWithAI envAll500 "tutorial" defaultSettings stLead).outcome =
      Outcome.failureHandled "Error" "Server error" := by
  exact ⟨by decide, by decide, by decide, by decide, by decide, by decide⟩

/-- C7 (amended): when all `CONFIG.RETRY_ATTEMPTS` attempts fail retryably,
`autoFormatLocal` is invoked exactly once — with no argument: it reads the raw
editor value — and unconditionally writes its formatted output back into the
editor, reporting only an info-level notification; because its return value is
`undefined`, the conditional degraded-success branch never fires (no
success-severity fallback notification exists in the run), and the original
network error of the final attempt is what reaches the caller as the terminal
outcome. -/
theorem exhausted_runs_fallback_once
    (env : Nat → FetchOutcome) (format : String) (settings : Settings) (st : ProcState)
    (hfail : ∀ n, 1 ≤ n → n ≤ CONFIG.RETRY_ATTEMPTS → failsRetryablyInCode (env n) = true)
    (hne : jsTrim st.editorValue ≠ "")
    (hlen : (jsTrim st.editorValue).length ≤ CONFIG.MAX_TEXT_LENGTH)
    (hb : st.isProcessing = false) :
    (processWithAI env format settings st).requests = CONFIG.RETRY_ATTEMPTS ∧
    (processWithAI env format settings st).fallbackCalls = 1 ∧
    (processWithAI env format settings st).state.editorValue =
      autoFormatLocalBody st.editorValue ∧
    (processWithAI env format settings st).outcome =
      Outcome.failureHandled (attemptErr (env CONFIG.RETRY_ATTEMPTS)).name
        (attemptErr (env CONFIG.RETRY_ATTEMPTS)).message ∧
    (⟨"📝 Local formatting applied", Sev.info⟩ ∈
      (processWithAI env format settings st).notifs) ∧
    (∀ nf ∈ (processWithAI env format settings st).notifs, nf.sev ≠ Sev.success) := by
  have hloop := attemptLoop_exhausts env CONFIG.RETRY_ATTEMPTS CONFIG.RETRY_ATTEMPTS 1
    (by omega) (by decide) (fun n h1 h2 => hfail n h1 h2)
  rw [processWithAI_valid env format settings st hne hlen hb,
    runMain_error env format settings st _ (attemptErr (env CONFIG.RETRY_ATTEMPTS))
      hloop.2.2]
  refine ⟨?_, rfl, rfl, rfl, ?_, ?_⟩
  · show (attemptLoop env CONFIG.RETRY_ATTEMPTS 1 CONFIG.RETRY_ATTEMPTS).requests =
      CONFIG.RETRY_ATTEMPTS
    rw [hloop.1]
  · refine List.mem_append.mpr (Or.inr ?_)
    simp
  · intro nf hnf hsev
    rcases List.mem_append.mp hnf with hmem | hmem
    · have := attemptLoop_notifs_info env CONFIG.RETRY_ATTEMPTS CONFIG.RETRY_ATTEMPTS 1
        nf hmem
      rw [hsev] at this
      exact absurd this (by decide)
    · simp only [List.mem_cons, List.not_mem_nil, or_false] at hmem
      rcases hmem with h | h | h <;> (rw [h] at hsev; simp at hsev)

/-- Witness for the C7 amended theorem. -/
theorem exhausted_runs_fallback_once_witness :
    (processWithAI envAll500 "tutorial" defaultSettings stIdle).requests =
      CONFIG.RETRY_ATTEMPTS ∧
    (processWithAI envAll500 "tutorial" defaultSettings stIdle).fallbackCalls = 1 ∧
    (processWithAI envAll500 "tutorial" defaultSettings stIdle).state.editorValue =
      autoFormatLocalBody stIdle.editorValue ∧
    (processWithAI envAll500 "tutorial" defaultSettings stIdle).outcome =
      Outcome.failureHandled (attemptErr (envAll500 CONFIG.RETRY_ATTEMPTS)).name
        (attemptErr (envAll500 CONFIG.RETRY_ATTEMPTS)).message ∧
    (⟨"📝 Local formatting applied", Sev.info⟩ ∈
      (processWithAI envAll500 "tutorial" defaultSettings stIdle).notifs) ∧
    (∀ nf ∈ (processWithAI envAll500 "tutorial" defaultSettings stIdle).notifs,
      nf.sev ≠ Sev.success) :=
  exhausted_runs_fallback_once envAll500 "tutorial" defaultSettings stIdle
    (fun n h1 h2 => by
      have h3 : n ≤ 3 := h2
      interval_cases n <;> decide)
    (by decide) (by decide) (by decide)

/-- C8: Enrichment can never fail the overall operation: for every string
input the body runs and `enrichContent` returns its result, and whenever the
internal body throws (as it does on a non-string `content`, where the first
`replace`/`split` call raises a `TypeError`), the `catch` returns the original
`content` unchanged. -/
theorem enrichContent_total_and_catches :
    (∀ (c : String) (format : String) (s : Settings),
      enrichContent (some c) format s = some (enrichBody c format s)) ∧
    (∀ (v : Option String) (format : String) (s : Settings) (e : Unit),
      enrichInner v format s = Except.error e → enrichContent v format s = v) := by
  constructor
  · intro c format s
    rfl
  · intro v format s e he
    unfold enrichContent
    rw [he]

/-- Witness for C8: on a `null` content the body throws and the original
value is returned unchanged. -/
theorem enrichContent_total_and_catches_witness :
    enrichInner none "tutorial" defaultSettings = Except.error () ∧
    enrichContent none "tutorial" defaultSettings = none :=
  ⟨rfl, enrichContent_total_and_catches.2 none "tutorial" defaultSettings () rfl⟩

/-- Every chunk produced by the tweet-packing loop is at most 280 characters,
provided the accumulator starts within the bound. -/
theorem buildTweets_bound :
    ∀ (lines : List String) (cur : String), cur.length ≤ 280 →
      ∀ t ∈ buildTweets lines cur, t.length ≤ 280 := by
  intro lines
  induction lines with
  | nil =>
      intro cur hcur t ht
      simp only [buildTweets] at ht
      by_cases h : cur = ""
      · rw [if_pos h] at ht
        simp at ht
      · rw [if_neg h] at ht
        simp only [List.mem_singleton] at ht
        rw [ht]
        exact hcur
  | cons line rest ih =>
      intro cur hcur t ht
      simp only [buildTweets] at ht
      by_cases hfit : (cur ++ "\n" ++ line).length ≤ 280
      · rw [if_pos hfit] at ht
        refine ih _ ?_ t ht
        by_cases hc : cur = ""
        · rw [if_pos hc]
          rw [hc] at hfit
          rw [String.length_append, String.length_append] at hfit
          have h0 : ("" : String).length = 0 := rfl
          have h1 : ("\n" : String).length = 1 := rfl
          omega
        · rw [if_neg hc]
          exact hfit
      · rw [if_neg hfit] at ht
        have hnew : (if line.length ≤ 280 then line
            else String.mk (line.data.take 277) ++ "...").length ≤ 280 := by
          by_cases hl : line.length ≤ 280
          · rw [if_pos hl]
            exact hl
          · rw [if_neg hl]
            rw [String.length_append]
            have h1 : (String.mk (line.data.take 277)).length = 277 := by
              show (line.data.take 277).length = 277
              rw [List.length_take]
              have h2 : line.length = line.data.length := rfl
              omega
            have h3 : ("..." : String).length = 3 := rfl
            omega
        by_cases hc : cur = ""
        · rw [if_pos hc] at ht
          exact ih _ hnew t ht
        · rw [if_neg hc] at ht
          rcases List.mem_cons.mp ht with h | h
          · rw [h]
            exact hcur
          · exact ih _ hnew t h

/-- C9 (amended): every chunk the micro-blogging segmentation of
`enrichTwitterContent` produces — before the thread-numbering prefix is
attached — is at most 280 characters long.  (The emitted chunk, prefix
included, can exceed 280: see the counterexample.) -/
theorem twitter_segments_le_280 (content : String) (t : String)
    (ht : t ∈ buildTweets ((jsSplitNL content).filter (fun l => jsTrim l != "")) "") :
    t.length ≤ 280 :=
  buildTweets_bound ((jsSplitNL content).filter (fun l => jsTrim l != "")) ""
    (by decide) t ht

/-- Witness for the C9 amended theorem. -/
theorem twitter_segments_le_280_witness :
    (("hi\nyo" : String) ∈
      buildTweets ((jsSplitNL "hi\nyo").filter (fun l => jsTrim l != "")) "") ∧
    ("hi\nyo" : String).length ≤ 280 :=
  ⟨by decide, twitter_segments_le_280 "hi\nyo" "hi\nyo" (by decide)⟩

/-- Two 280-character lines: each becomes its own tweet, and the numbering
prefix `"1/2\n\n"` pushes the emitted chunk to 285 characters. -/
def badTwitter : String :=
  String.mk (List.replicate 280 'a') ++ "\n" ++ String.mk (List.replicate 280 'b')

set_option maxRecDepth 100000 in
/-- C9 counterexample: an emitted chunk of the twitter enrichment — including
its thread-numbering prefix, exactly as joined into the final output — has
285 > 280 characters. -/
theorem twitter_emitted_chunk_exceeds_280 :
    ∃ ch, ch ∈ emittedTweetChunks badTwitter ∧ 280 < ch.length := by
  refine ⟨"1/2\n\n" ++ String.mk (List.replicate 280 'a'), ?_, ?_⟩
  · decide
  · decide
